import Mathlib

/-!
# salesai: the media-stream audio bridge and the outbound-call endpoint of server.js

A shallow embedding of the two stateful parts of `src/server.js`:

* the `/media-stream` WebSocket handler (lines 98-160): the closure variables
  `session` and `streamId`, the `onmessage` callback given to `ai.live.connect`, and the
  `message` and `close` listeners of `connection.socket`;
* the `POST /outbound-call` route (lines 47-82).

JavaScript values are a small tree type; the built-ins the handlers call
(`JSON.parse`, `JSON.stringify`, string conversion, base64) are fields of `Runtime`, so
every theorem holds for whatever these built-ins compute.  Each handler returns the new
closure state, the list of calls it made on its collaborators, and whether an exception
escaped it.
-/

namespace SalesAI

/-! ## JavaScript values -/

/-- A JavaScript number: NaN, the infinities, or `(-1)^negative * mantissa * 2^exponent`. -/
inductive JSNum where
  | nan
  | posInf
  | negInf
  | fin (negative : Bool) (mantissa : Nat) (exponent : Int)

/-- A JavaScript value as far as the handlers look at it. An object lists each own
property once; `JSVal.read` takes the first entry for a name. -/
inductive JSVal where
  | undefined
  | null
  | bool (b : Bool)
  | num (n : JSNum)
  | str (s : String)
  | arr (items : List JSVal)
  | obj (fields : List (String × JSVal))

/-- The exception kinds the handlers can meet. -/
inductive JSError where
  | typeError
  | badJson
  | other (message : String)

namespace JSVal

/-- ToBoolean: what `if (v)` and `v && ...` test. -/
def truthy : JSVal → Bool
  | undefined => false
  | null => false
  | bool b => b
  | num JSNum.nan => false
  | num (JSNum.fin _ m _) => m != 0
  | num _ => true
  | str s => s != ""
  | arr _ => true
  | obj _ => true

/-- Whether the value is `null` or `undefined`. -/
def isNullish : JSVal → Bool
  | undefined => true
  | null => true
  | _ => false

/-- The comparison `v === 'lit'` against a string literal. -/
def strictEqStr (v : JSVal) (lit : String) : Bool :=
  match v with
  | str s => s == lit
  | _ => false

/-- Reading the property `key` of a value that is not nullish. The handlers only read
names that are no built-in property of strings, numbers, booleans or arrays
(`event`, `start`, `streamSid`, `media`, `payload`, `serverContent`, `modelTurn`, `parts`,
`inlineData`, `data`, `to`, `from`, `accountSid`, `authToken`), so a primitive or an array
yields `undefined`. -/
def read (v : JSVal) (key : String) : JSVal :=
  match v with
  | obj fields => (fields.lookup key).getD undefined
  | _ => undefined

/-- Reading element `[0]` of a value that is not nullish: the first item of an array, the
first character of a string (as a one-character string), the property `"0"` of an object. -/
def readIndex0 (v : JSVal) : JSVal :=
  match v with
  | arr items => items.head?.getD undefined
  | str s => if s == "" then undefined else str (s.take 1)
  | obj fields => (fields.lookup "0").getD undefined
  | _ => undefined

/-- Plain member access `v.key`: a TypeError on `null` and `undefined`. -/
def getProp (v : JSVal) (key : String) : Except JSError JSVal :=
  if v.isNullish then Except.error JSError.typeError else Except.ok (v.read key)

/-- Plain element access `v[0]`: a TypeError on `null` and `undefined`. -/
def getIndex0 (v : JSVal) : Except JSError JSVal :=
  if v.isNullish then Except.error JSError.typeError else Except.ok v.readIndex0

/-- Optional member access `v?.key` inside a chain whose later links are all optional:
a nullish `v` makes the rest of the chain `undefined`. -/
def optProp (v : JSVal) (key : String) : JSVal :=
  if v.isNullish then undefined else v.read key

/-- Optional element access `v?.[0]`. -/
def optIndex0 (v : JSVal) : JSVal :=
  if v.isNullish then undefined else v.readIndex0

end JSVal

/-- The JavaScript built-ins the handlers call. -/
structure Runtime where
  /-- The call `JSON.parse(text)`; `none` when it throws a SyntaxError. -/
  JSONparse : String → Option JSVal
  /-- The call `JSON.stringify(value)`. -/
  JSONstringify : JSVal → String
  /-- String conversion, as done by a template literal and by `URLSearchParams.append`. It
  throws a TypeError on an object that has no primitive value, such as one whose own
  `toString` member is not a function. -/
  toStr : JSVal → Except JSError String
  /-- The call `Buffer.from(text).toString('base64')`. -/
  base64 : String → String

/-! ## The audio bridge (`/media-stream`) -/

/-- An AI session object, as returned by `ai.live.connect`. -/
abbrev SessionId := Nat

/-- The telephony WebSocket, `connection.socket`, with the `readyState` of the WebSocket
interface: 0 connecting, 1 open, 2 closing, 3 closed. -/
structure Socket where
  readyState : Nat

/-- The constant `OPEN` of the WebSocket interface. -/
def Socket.OPEN : Nat := 1

/-- The `connection` argument of the route handler: the stream wrapper whose `socket`
property is the WebSocket that the handler listens on and sends to (lines 123, 140, 155). -/
structure Connection where
  socket : Socket

/-- The read `connection.readyState` of line 122. It is a read on the stream wrapper, not on
`connection.socket`, and the wrapper has no such property: the value is `undefined`, written
`none` (a number would be `some n`). -/
def Connection.readyState (_c : Connection) : Option Nat := none

/-- The read `connection.OPEN` of line 122: likewise `undefined` on the stream wrapper. -/
def Connection.OPEN (_c : Connection) : Option Nat := none

/-- The closure state of one `/media-stream` connection (lines 103-104) together with its
`connection`. -/
structure Bridge where
  session : Option SessionId
  streamId : JSVal
  connection : Connection

/-- The state right after the handler is entered: `session = null`, `streamId = null`. -/
def Bridge.initial (c : Connection) : Bridge :=
  { session := none, streamId := JSVal.null, connection := c }

/-- A call a handler makes on one of its collaborators. `sessionClose` and `socketClose`
stand for `session.close()` and closing the telephony socket. -/
inductive Effect where
  | sendRealtimeInput (session : SessionId) (input : JSVal)
  | sessionClose (session : SessionId)
  | socketSend (data : String)
  | socketClose
  | consoleLog (text : String)
  | consoleError (text : String)

/-- What one handler invocation did. -/
structure Outcome where
  state : Bridge
  effects : List Effect
  raised : Bool

/-- The object literal of lines 123-127. -/
def outboundMessage (streamId audioData : JSVal) : JSVal :=
  JSVal.obj [("event", JSVal.str "media"), ("streamSid", streamId),
    ("media", JSVal.obj [("payload", audioData)])]

/-- The argument of `session.sendRealtimeInput` (lines 146-148). -/
def realtimeInput (payload : JSVal) : JSVal :=
  JSVal.obj [("media", JSVal.obj [("mimeType", JSVal.str "audio/pcm;rate=8000"),
    ("data", payload)])]

/-- The condition of line 120: `msg.serverContent?.modelTurn?.parts?.[0]?.inlineData`. -/
def inlineDataOf (msg : JSVal) : Except JSError JSVal := do
  let serverContent ← msg.getProp "serverContent"
  pure ((((serverContent.optProp "modelTurn").optProp "parts").optIndex0).optProp "inlineData")

/-- The right-hand side of line 121:
`msg.serverContent.modelTurn.parts[0].inlineData.data`. -/
def audioDataOf (msg : JSVal) : Except JSError JSVal := do
  let serverContent ← msg.getProp "serverContent"
  let modelTurn ← serverContent.getProp "modelTurn"
  let parts ← modelTurn.getProp "parts"
  let part ← parts.getIndex0
  let inlineData ← part.getProp "inlineData"
  inlineData.getProp "data"

/-- The `onmessage` callback (lines 119-130). It has no try/catch. The test
`connection.readyState === connection.OPEN` compares two values that are each `undefined`
or a number. -/
def onmessage (rt : Runtime) (b : Bridge) (msg : JSVal) : Outcome :=
  match inlineDataOf msg with
  | Except.error _ => { state := b, effects := [], raised := true }
  | Except.ok inlineData =>
    if inlineData.truthy then
      match audioDataOf msg with
      | Except.error _ => { state := b, effects := [], raised := true }
      | Except.ok audioData =>
        if b.streamId.truthy && b.connection.readyState == b.connection.OPEN then
          { state := b
            effects := [Effect.socketSend (rt.JSONstringify (outboundMessage b.streamId audioData))]
            raised := false }
        else { state := b, effects := [], raised := false }
    else { state := b, effects := [], raised := false }

/-- The body of the try block of the `message` listener (lines 142-149). -/
def messageBody (rt : Runtime) (b : Bridge) (message : String) :
    Except JSError (Bridge × List Effect) := do
  let msg ← (match rt.JSONparse message with
    | some v => Except.ok v
    | none => Except.error JSError.badJson)
  let event ← msg.getProp "event"
  if event.strictEqStr "start" then
    let start ← msg.getProp "start"
    let streamSid ← start.getProp "streamSid"
    pure ({ b with streamId := streamSid }, [])
  else if event.strictEqStr "media" then
    match b.session with
    | some session =>
      let media ← msg.getProp "media"
      let payload ← media.getProp "payload"
      pure (b, [Effect.sendRealtimeInput session (realtimeInput payload)])
    | none => pure (b, [])
  else pure (b, [])

/-- The `message` listener of the telephony socket (lines 140-153): the try block, and the
catch clause that logs and swallows whatever was thrown. -/
def onSocketMessage (rt : Runtime) (b : Bridge) (message : String) : Outcome :=
  match messageBody rt b message with
  | Except.ok (b', effects) => { state := b', effects := effects, raised := false }
  | Except.error _ =>
    { state := b, effects := [Effect.consoleError "Socket message error"], raised := false }

/-- The `close` listener of the telephony socket (lines 155-158). -/
def onSocketClose (b : Bridge) : Outcome :=
  { state := b, effects := [Effect.consoleLog "Client disconnected"], raised := false }

/-- The `onopen` callback (line 118). -/
def onopen (b : Bridge) : Outcome :=
  { state := b, effects := [Effect.consoleLog "Gemini Connected"], raised := false }

/-- What happens to one bridge, one event-loop turn at a time. -/
inductive Event where
  /-- A telephony message arrives. -/
  | socketMessage (message : String)
  /-- The AI session delivers a message to `onmessage`. -/
  | sessionMessage (msg : JSVal)
  /-- The AI session reports that it is open (`onopen`). -/
  | sessionOpen
  /-- The `await ai.live.connect(...)` of `startGemini` resolves: line 108 assigns `session`. -/
  | connectResolved (session : SessionId)
  /-- The `await ai.live.connect(...)` of `startGemini` rejects: lines 133-135 log. -/
  | connectRejected
  /-- The telephony socket emits `close`. -/
  | socketClosed
  /-- The transport changes `connection.socket.readyState`. -/
  | readyStateChanged (readyState : Nat)

/-- One event-loop turn. -/
def step (rt : Runtime) (b : Bridge) : Event → Outcome
  | Event.socketMessage message => onSocketMessage rt b message
  | Event.sessionMessage msg => onmessage rt b msg
  | Event.sessionOpen => onopen b
  | Event.connectResolved session =>
    { state := { b with session := some session }, effects := [], raised := false }
  | Event.connectRejected =>
    { state := b, effects := [Effect.consoleError "Gemini Connect Error:"], raised := false }
  | Event.socketClosed => onSocketClose b
  | Event.readyStateChanged readyState =>
    { state := { b with connection := { socket := { readyState := readyState } } }
      effects := [], raised := false }

/-- The state after a list of events. -/
def runState (rt : Runtime) (b : Bridge) : List Event → Bridge
  | [] => b
  | e :: es => runState rt (step rt b e).state es

/-- Every collaborator call made while a list of events is processed, in order. -/
def runEffects (rt : Runtime) (b : Bridge) : List Event → List Effect
  | [] => []
  | e :: es => (step rt b e).effects ++ runEffects rt (step rt b e).state es

/-- The texts written to the telephony socket. -/
def socketWrites (effects : List Effect) : List String :=
  effects.filterMap fun e => match e with
    | Effect.socketSend data => some data
    | _ => none

/-- The realtime inputs forwarded to the AI session. -/
def sessionInputs (effects : List Effect) : List JSVal :=
  effects.filterMap fun e => match e with
    | Effect.sendRealtimeInput _ input => some input
    | _ => none

/-- The number of `session.close()` calls. -/
def sessionCloses (effects : List Effect) : Nat :=
  effects.countP fun e => match e with
    | Effect.sessionClose _ => true
    | _ => false

/-- The number of times the telephony connection is closed by the bridge. -/
def socketCloses (effects : List Effect) : Nat :=
  effects.countP fun e => match e with
    | Effect.socketClose => true
    | _ => false

/-! ## The outbound-call endpoint (`POST /outbound-call`) -/

/-- The request given to `fetch` (lines 62-69). -/
structure FetchRequest where
  url : String
  method : String
  authorization : String
  contentType : String
  params : List (String × String)

/-- How reading a response body ends: the promise resolves, or it rejects with an error
that has a message. -/
inductive BodyRead (α : Type) where
  | resolved (value : α)
  | rejected (message : String)

/-- The provider response: its status, and what `response.text()` and `response.json()`
give. -/
structure Response where
  status : Nat
  text : BodyRead String
  json : BodyRead JSVal

/-- The property `response.ok` of the Fetch standard: the status is in the range 200-299. -/
def Response.ok (r : Response) : Bool := decide (200 ≤ r.status ∧ r.status ≤ 299)

/-- How the `fetch` promise ends. -/
inductive FetchOutcome where
  | response (r : Response)
  | rejected (message : String)

/-- How the route handler ends: it returns a value (which Fastify sends as the reply), it
sends a reply with a status code itself, or an exception escapes it. -/
inductive Reply where
  | returned (data : JSVal)
  | sent (code : Nat) (payload : JSVal)
  | thrown (e : JSError)

/-- What one invocation of the route handler did. -/
structure CallResult where
  requests : List FetchRequest
  logged : List String
  reply : Reply

/-- The request built on lines 51-69 from the body (which is not nullish) and the text of
the host header. The string conversions of `accountSid`, `authToken`, `to` and `from` on
lines 55-59 stand before the try block, in this order; each may throw. -/
def outboundRequest (rt : Runtime) (body : JSVal) (hostText : String) :
    Except JSError FetchRequest := do
  let twimlUrl := "https://" ++ hostText ++ "/incoming-call"
  let accountSid ← rt.toStr (body.read "accountSid")
  let authToken ← rt.toStr (body.read "authToken")
  let basicAuth := rt.base64 (accountSid ++ ":" ++ authToken)
  let toNumber ← rt.toStr (body.read "to")
  let fromNumber ← rt.toStr (body.read "from")
  pure
    { url := "https://api.twilio.com/2010-04-01/Accounts/" ++ accountSid ++ "/Calls.json"
      method := "POST"
      authorization := "Basic " ++ basicAuth
      contentType := "application/x-www-form-urlencoded"
      params := [("Url", twimlUrl), ("To", toNumber), ("From", fromNumber)] }

/-- The try block of lines 61-77 once `fetch` has ended: the data to return, or the message
of the error that reaches the catch clause. -/
def tryBlock : FetchOutcome → Except String JSVal
  | FetchOutcome.rejected message => Except.error message
  | FetchOutcome.response r =>
    if !r.ok then
      match r.text with
      | BodyRead.resolved text => Except.error text
      | BodyRead.rejected message => Except.error message
    else
      match r.json with
      | BodyRead.resolved data => Except.ok data
      | BodyRead.rejected message => Except.error message

/-- The route handler of `POST /outbound-call` (lines 47-82). `body` is `request.body`,
`host` is `request.headers.host` (a string, or `none` for `undefined`), `fetch` is the
provider. Destructuring a nullish body (line 48) and the string conversions of lines 53-59
throw before the try block: then no request is made and no reply is sent by the handler. -/
def outboundCall (rt : Runtime) (body : JSVal) (host : Option String)
    (fetch : FetchRequest → FetchOutcome) : CallResult :=
  if body.isNullish then
    { requests := [], logged := [], reply := Reply.thrown JSError.typeError }
  else
    match rt.toStr (body.read "to") with
    | Except.error e => { requests := [], logged := [], reply := Reply.thrown e }
    | Except.ok toText =>
      let initiating := "Initiating call to " ++ toText ++ "..."
      match outboundRequest rt body (host.getD "undefined") with
      | Except.error e => { requests := [], logged := [initiating], reply := Reply.thrown e }
      | Except.ok request =>
        match tryBlock (fetch request) with
        | Except.ok data =>
          { requests := [request], logged := [initiating], reply := Reply.returned data }
        | Except.error message =>
          { requests := [request], logged := [initiating, message]
            reply := Reply.sent 500 (JSVal.obj [("error", JSVal.str message)]) }

/-! ## Message shapes named by the properties -/

/-- The inline audio data carried by the first model-turn part of an AI-session message:
the `data` of `serverContent.modelTurn.parts[0].inlineData` when that value is truthy. -/
def inlineAudioData (msg : JSVal) : Option JSVal :=
  let inlineData :=
    (((((msg.read "serverContent").optProp "modelTurn").optProp "parts").optIndex0).optProp
      "inlineData")
  if inlineData.truthy then some (inlineData.read "data") else none

/-- A telephony `start` message: it parses, its `event` is the string `start`, and it
carries a `start` value. -/
def isStartMessage (rt : Runtime) (message : String) : Bool :=
  match rt.JSONparse message with
  | some v => (v.read "event").strictEqStr "start" && !(v.read "start").isNullish
  | none => false

/-- The payload of a telephony `media` message: the message parses, its `event` is the
string `media`, it carries a `media` value, and the payload is that value's `payload`. -/
def mediaPayload (rt : Runtime) (message : String) : Option JSVal :=
  match rt.JSONparse message with
  | some v =>
    if (v.read "event").strictEqStr "media" && !(v.read "media").isNullish then
      some ((v.read "media").read "payload")
    else none
  | none => none

/-! ## A runtime for evaluating the handlers on concrete inputs -/

/-- A string between double quotes. -/
def sampleQuote (s : String) : String := "\"" ++ s ++ "\""

/-- A stand-in for `JSON.stringify` on a string leaf. -/
def sampleLeaf : JSVal → String
  | JSVal.str s => sampleQuote s
  | _ => "null"

/-- A stand-in for `JSON.stringify` on a string or an object of strings. -/
def sampleFlat : JSVal → String
  | JSVal.str s => sampleQuote s
  | JSVal.obj fields =>
    "\x7b" ++ ",".intercalate (fields.map fun kv => sampleQuote kv.1 ++ ":" ++ sampleLeaf kv.2)
      ++ "\x7d"
  | _ => "null"

/-- A stand-in for `JSON.stringify`, exact on objects nested at most two deep whose leaves
are strings without quotes, backslashes and control characters. -/
def sampleStringify : JSVal → String
  | JSVal.obj fields =>
    "\x7b" ++ ",".intercalate (fields.map fun kv => sampleQuote kv.1 ++ ":" ++ sampleFlat kv.2)
      ++ "\x7d"
  | v => sampleFlat v

/-- String conversion for the sample runtime, exact on strings, `undefined`, `null`,
booleans and objects: an object built by `JSON.parse` converts to `[object Object]`, unless
it has an own `toString` member, which is then not a function, and the conversion throws a
TypeError. Numbers and arrays get a stand-in text. -/
def sampleToStr : JSVal → Except JSError String
  | JSVal.str s => Except.ok s
  | JSVal.undefined => Except.ok "undefined"
  | JSVal.null => Except.ok "null"
  | JSVal.bool true => Except.ok "true"
  | JSVal.bool false => Except.ok "false"
  | JSVal.obj fields =>
    if (fields.lookup "toString").isSome then Except.error JSError.typeError
    else Except.ok "[object Object]"
  | JSVal.num _ => Except.ok "0"
  | JSVal.arr _ => Except.ok ""

/-- A runtime whose `JSON.parse` knows the texts of a table and throws on every other text.
The base64 encoder is a stand-in that returns its argument. -/
def sampleRuntime (table : List (String × JSVal)) : Runtime :=
  { JSONparse := fun text => table.lookup text
    JSONstringify := sampleStringify
    toStr := sampleToStr
    base64 := fun text => text }

/-- The value of the telephony message `start` with stream id `s`. -/
def startValue (s : JSVal) : JSVal :=
  JSVal.obj [("event", JSVal.str "start"), ("start", JSVal.obj [("streamSid", s)])]

/-- The value of the telephony message `media` with payload `p`. -/
def mediaValue (p : JSVal) : JSVal :=
  JSVal.obj [("event", JSVal.str "media"), ("media", JSVal.obj [("payload", p)])]

/-- An AI-session message whose first model-turn part carries the inline data `d`. -/
def audioMessage (d : JSVal) : JSVal :=
  JSVal.obj [("serverContent", JSVal.obj [("modelTurn", JSVal.obj [("parts",
    JSVal.arr [JSVal.obj [("inlineData", JSVal.obj [("data", d)])]])])])]

/-- A telephony `media` message: it parses and its `event` is the string `media`. -/
def isMediaMessage (rt : Runtime) (message : String) : Bool :=
  match rt.JSONparse message with
  | some v => (v.read "event").strictEqStr "media"
  | none => false

/-- A telephony `stop` message: it parses and its `event` is the string `stop`. -/
def isStopMessage (rt : Runtime) (message : String) : Bool :=
  match rt.JSONparse message with
  | some v => (v.read "event").strictEqStr "stop"
  | none => false

/-- A malformed telephony message, for a bridge in state `b`: the text does not parse; or it
parses to something that is not an object; or it is a `start` message whose `start` is
absent or `null`; or, while a session exists, a `media` message whose `media` is absent or
`null`. -/
def isMalformed (rt : Runtime) (b : Bridge) (message : String) : Bool :=
  match rt.JSONparse message with
  | none => true
  | some v =>
    (match v with
      | JSVal.obj _ => false
      | _ => true) ||
    ((v.read "event").strictEqStr "start" && (v.read "start").isNullish) ||
    ((v.read "event").strictEqStr "media" && b.session.isSome && (v.read "media").isNullish)

/-! ## Concrete inputs -/

/-- The text `{"event":"start","start":{"streamSid":"S1"}}`. -/
def startText : String :=
  "\x7b\"event\":\"start\",\"start\":\x7b\"streamSid\":\"S1\"\x7d\x7d"

/-- The text `{"event":"start","start":{"streamSid":""}}`. -/
def startEmptyText : String :=
  "\x7b\"event\":\"start\",\"start\":\x7b\"streamSid\":\"\"\x7d\x7d"

/-- The text `{"event":"start","start":5}`. -/
def startNumberText : String := "\x7b\"event\":\"start\",\"start\":5\x7d"

/-- The text `{"event":"start"}`. -/
def startBareText : String := "\x7b\"event\":\"start\"\x7d"

/-- The text `{"event":"media","media":{"payload":"AAAA"}}`. -/
def mediaText : String :=
  "\x7b\"event\":\"media\",\"media\":\x7b\"payload\":\"AAAA\"\x7d\x7d"

/-- The text `{"event":"media","media":{"payload":"CCCC"}}`. -/
def laterMediaText : String :=
  "\x7b\"event\":\"media\",\"media\":\x7b\"payload\":\"CCCC\"\x7d\x7d"

/-- The text `{"event":"media","media":"AAAA"}`. -/
def mediaStringText : String := "\x7b\"event\":\"media\",\"media\":\"AAAA\"\x7d"

/-- The text `{"event":"stop"}`. -/
def stopText : String := "\x7b\"event\":\"stop\"\x7d"

/-- What `JSON.parse` gives on the texts above. -/
def sampleTable : List (String × JSVal) :=
  [ (startText, startValue (JSVal.str "S1")),
    (startEmptyText, startValue (JSVal.str "")),
    (startNumberText,
      JSVal.obj [("event", JSVal.str "start"), ("start", JSVal.num (JSNum.fin false 5 0))]),
    (startBareText, JSVal.obj [("event", JSVal.str "start")]),
    (mediaText, mediaValue (JSVal.str "AAAA")),
    (laterMediaText, mediaValue (JSVal.str "CCCC")),
    (mediaStringText, JSVal.obj [("event", JSVal.str "media"), ("media", JSVal.str "AAAA")]),
    (stopText, JSVal.obj [("event", JSVal.str "stop")]),
    ("null", JSVal.null) ]

/-- The runtime of the concrete inputs. -/
def rt0 : Runtime := sampleRuntime sampleTable

/-- A connection whose telephony socket is open. -/
def openChannel : Connection := { socket := { readyState := 1 } }

/-- A connection whose telephony socket is closed. -/
def closedChannel : Connection := { socket := { readyState := 3 } }

/-- A bridge in mid-call: session 7 connected, stream `S1` started, channel open. -/
def midCall : Bridge :=
  { session := some 7, streamId := JSVal.str "S1", connection := openChannel }

/-- The text the bridge writes for stream `S1` and payload `BBBB`. -/
def outboundText : String :=
  "\x7b\"event\":\"media\",\"streamSid\":\"S1\",\"media\":\x7b\"payload\":\"BBBB\"\x7d\x7d"

/-- A caller's request body: the four fields the endpoint reads. -/
def sampleBody : JSVal :=
  JSVal.obj [("to", JSVal.str "+15550001"), ("from", JSVal.str "+15550002"),
    ("accountSid", JSVal.str "AC1"), ("authToken", JSVal.str "secret")]

/-- A request body whose `to` member is an object with an own `toString` member: the text
`{"to":{"toString":1},"from":"+15550002","accountSid":"AC1","authToken":"secret"}`. -/
def unconvertibleBody : JSVal :=
  JSVal.obj [("to", JSVal.obj [("toString", JSVal.num (JSNum.fin false 1 0))]),
    ("from", JSVal.str "+15550002"), ("accountSid", JSVal.str "AC1"),
    ("authToken", JSVal.str "secret")]

/-- The request the endpoint builds for `sampleBody` and host `example.org` in the sample
runtime (whose base64 encoder returns its argument). -/
def sampleRequest : FetchRequest :=
  { url := "https://api.twilio.com/2010-04-01/Accounts/AC1/Calls.json"
    method := "POST"
    authorization := "Basic AC1:secret"
    contentType := "application/x-www-form-urlencoded"
    params := [("Url", "https://example.org/incoming-call"), ("To", "+15550001"),
      ("From", "+15550002")] }

/-- A provider that rejects the call with status 401 and body text `denied`. -/
def denyingProvider : FetchRequest → FetchOutcome :=
  fun _ => FetchOutcome.response
    { status := 401, text := BodyRead.resolved "denied",
      json := BodyRead.rejected "Unexpected token" }

/-- A provider that accepts the call with status 201 and a JSON body. -/
def acceptingProvider : FetchRequest → FetchOutcome :=
  fun _ => FetchOutcome.response
    { status := 201, text := BodyRead.resolved "",
      json := BodyRead.resolved (JSVal.obj [("sid", JSVal.str "CA1")]) }

/-! ## How the handlers behave, case by case -/

theorem strictEqStr_start_not_media (v : JSVal) (h : v.strictEqStr "start" = true) :
    v.strictEqStr "media" = false := by
  cases v <;> simp [JSVal.strictEqStr] at h ⊢
  subst h; decide

/-- The `message` listener on a text that `JSON.parse` rejects. -/
theorem onSocketMessage_unparseable (rt : Runtime) (b : Bridge) (message : String)
    (h : rt.JSONparse message = none) :
    onSocketMessage rt b message =
      { state := b, effects := [Effect.consoleError "Socket message error"], raised := false } := by
  simp [onSocketMessage, messageBody, h, bind, Except.bind]

theorem onSocketMessage_nullish (rt : Runtime) (b : Bridge) (message : String) (v : JSVal)
    (h : rt.JSONparse message = some v) (hv : v.isNullish = true) :
    onSocketMessage rt b message =
      { state := b, effects := [Effect.consoleError "Socket message error"], raised := false } := by
  simp [onSocketMessage, messageBody, h, bind, Except.bind, JSVal.getProp, hv]

theorem onSocketMessage_start (rt : Runtime) (b : Bridge) (message : String) (v : JSVal)
    (h : rt.JSONparse message = some v) (hv : v.isNullish = false)
    (he : (v.read "event").strictEqStr "start" = true) :
    onSocketMessage rt b message =
      if (v.read "start").isNullish then
        { state := b, effects := [Effect.consoleError "Socket message error"], raised := false }
      else
        { state := { b with streamId := (v.read "start").read "streamSid" }, effects := [],
          raised := false } := by
  by_cases hs : (v.read "start").isNullish = true <;>
    simp [onSocketMessage, messageBody, h, bind, Except.bind, JSVal.getProp, hv, he, hs, pure,
      Except.pure]

theorem onSocketMessage_media (rt : Runtime) (b : Bridge) (message : String) (v : JSVal)
    (h : rt.JSONparse message = some v) (hv : v.isNullish = false)
    (he : (v.read "event").strictEqStr "media" = true) :
    onSocketMessage rt b message =
      match b.session with
      | none => { state := b, effects := [], raised := false }
      | some session =>
        if (v.read "media").isNullish then
          { state := b, effects := [Effect.consoleError "Socket message error"], raised := false }
        else
          { state := b
            effects := [Effect.sendRealtimeInput session
              (realtimeInput ((v.read "media").read "payload"))]
            raised := false } := by
  have hn : (v.read "event").strictEqStr "start" = false := by
    cases hh : (v.read "event").strictEqStr "start"
    · rfl
    · rw [strictEqStr_start_not_media _ hh] at he; exact absurd he (by decide)
  cases hsess : b.session with
  | none =>
    simp [onSocketMessage, messageBody, h, bind, Except.bind, JSVal.getProp, hv, he, hn, hsess,
      pure, Except.pure]
  | some session =>
    by_cases hs : (v.read "media").isNullish = true <;>
    simp [onSocketMessage, messageBody, h, bind, Except.bind, JSVal.getProp, hv, he, hn, hsess, hs,
      pure, Except.pure]

theorem onSocketMessage_other (rt : Runtime) (b : Bridge) (message : String) (v : JSVal)
    (h : rt.JSONparse message = some v) (hv : v.isNullish = false)
    (hs : (v.read "event").strictEqStr "start" = false)
    (hm : (v.read "event").strictEqStr "media" = false) :
    onSocketMessage rt b message = { state := b, effects := [], raised := false } := by
  simp [onSocketMessage, messageBody, h, bind, Except.bind, JSVal.getProp, hv, hs, hm, pure,
    Except.pure]

theorem truthy_not_nullish (v : JSVal) (h : v.truthy = true) : v.isNullish = false := by
  cases v <;> simp [JSVal.truthy, JSVal.isNullish] at h ⊢

theorem optProp_truthy (v : JSVal) (key : String) (h : (v.optProp key).truthy = true) :
    v.isNullish = false ∧ v.optProp key = v.read key := by
  unfold JSVal.optProp at h ⊢
  cases hv : v.isNullish
  · simp
  · simp [hv, JSVal.truthy] at h

theorem optProp_not_nullish (v : JSVal) (key : String) (h : (v.optProp key).isNullish = false) :
    v.isNullish = false ∧ v.optProp key = v.read key := by
  unfold JSVal.optProp at h ⊢
  cases hv : v.isNullish
  · simp
  · simp only [hv, if_true] at h
    simp [JSVal.isNullish] at h

theorem optIndex0_not_nullish (v : JSVal) (h : v.optIndex0.isNullish = false) :
    v.isNullish = false ∧ v.optIndex0 = v.readIndex0 := by
  unfold JSVal.optIndex0 at h ⊢
  cases hv : v.isNullish
  · simp
  · simp only [hv, if_true] at h
    simp [JSVal.isNullish] at h

theorem inlineAudioData_nullish (msg : JSVal) (h : msg.isNullish = true) :
    inlineAudioData msg = none := by
  cases msg <;> simp [JSVal.isNullish] at h <;>
    simp [inlineAudioData, JSVal.read, JSVal.optProp, JSVal.optIndex0, JSVal.isNullish,
      JSVal.truthy]

theorem onmessage_nullish (rt : Runtime) (b : Bridge) (msg : JSVal) (h : msg.isNullish = true) :
    onmessage rt b msg = { state := b, effects := [], raised := true } := by
  simp [onmessage, inlineDataOf, JSVal.getProp, h, bind, Except.bind]

theorem onmessage_no_data (rt : Runtime) (b : Bridge) (msg : JSVal)
    (h : msg.isNullish = false) (hd : inlineAudioData msg = none) :
    onmessage rt b msg = { state := b, effects := [], raised := false } := by
  have : (((((msg.read "serverContent").optProp "modelTurn").optProp "parts").optIndex0).optProp
      "inlineData").truthy = false := by
    simp only [inlineAudioData] at hd
    split at hd
    · exact absurd hd (by simp)
    · rename_i hn
      simpa using hn
  simp [onmessage, inlineDataOf, JSVal.getProp, h, bind, Except.bind, pure, Except.pure, this]

theorem audioDataOf_of_data (msg d : JSVal) (h : inlineAudioData msg = some d) :
    msg.isNullish = false ∧ audioDataOf msg = Except.ok d ∧
      ∃ i, inlineDataOf msg = Except.ok i ∧ i.truthy = true := by
  have hm : msg.isNullish = false := by
    cases hh : msg.isNullish
    · rfl
    · rw [inlineAudioData_nullish msg hh] at h; exact absurd h (by simp)
  simp only [inlineAudioData] at h
  split at h
  · rename_i ht
    obtain ⟨h4, e4⟩ := optProp_truthy _ _ ht
    obtain ⟨h3, e3⟩ := optIndex0_not_nullish _ h4
    obtain ⟨h2, e2⟩ := optProp_not_nullish _ _ h3
    obtain ⟨h1, e1⟩ := optProp_not_nullish _ _ h2
    have h5 := truthy_not_nullish _ ht
    refine ⟨hm, ?_, _, ?_, ht⟩
    · rw [e4, e3, e2, e1] at h
      rw [e3, e2, e1] at h4
      rw [e2, e1] at h3
      rw [e1] at h2
      rw [e4, e3, e2, e1] at h5
      simp only [Option.some.injEq] at h
      simp [audioDataOf, JSVal.getProp, JSVal.getIndex0, hm, h1, h2, h3, h4, h5, bind,
        Except.bind, h]
    · simp [inlineDataOf, JSVal.getProp, hm, bind, Except.bind, pure, Except.pure]
  · exact absurd h (by simp)

theorem onmessage_data (rt : Runtime) (b : Bridge) (msg d : JSVal)
    (h : inlineAudioData msg = some d) :
    onmessage rt b msg =
      if b.streamId.truthy then
        { state := b
          effects := [Effect.socketSend (rt.JSONstringify (outboundMessage b.streamId d))]
          raised := false }
      else { state := b, effects := [], raised := false } := by
  obtain ⟨_, ha, i, hi, ht⟩ := audioDataOf_of_data msg d h
  simp [onmessage, hi, ht, ha, Connection.readyState, Connection.OPEN]

theorem mem_socketWrites (effects : List Effect) (data : String) :
    data ∈ socketWrites effects ↔ Effect.socketSend data ∈ effects := by
  unfold socketWrites
  rw [List.mem_filterMap]
  constructor
  · rintro ⟨e, he, h⟩
    cases e <;> simp at h
    subst h; exact he
  · intro h
    exact ⟨_, h, rfl⟩

/-- Everything the `message` listener can do, in one statement. -/
theorem onSocketMessage_spec (rt : Runtime) (b : Bridge) (message : String) :
    (onSocketMessage rt b message).raised = false ∧
    (onSocketMessage rt b message).state.session = b.session ∧
    (onSocketMessage rt b message).state.connection = b.connection ∧
    socketWrites (onSocketMessage rt b message).effects = [] ∧
    sessionCloses (onSocketMessage rt b message).effects = 0 ∧
    socketCloses (onSocketMessage rt b message).effects = 0 ∧
    sessionInputs (onSocketMessage rt b message).effects =
      (match b.session with
        | none => []
        | some _ => ((mediaPayload rt message).map realtimeInput).toList) ∧
    ((onSocketMessage rt b message).state.streamId = b.streamId ∨
      isStartMessage rt message = true) := by
  obtain ⟨session, streamId, connection⟩ := b
  cases hp : rt.JSONparse message with
  | none =>
    rw [onSocketMessage_unparseable rt _ message hp]
    cases session <;>
      simp [socketWrites, sessionCloses, socketCloses, sessionInputs, mediaPayload, hp]
  | some v =>
    cases hv : v.isNullish with
    | true =>
      rw [onSocketMessage_nullish rt _ message v hp hv]
      have : v.read "media" = JSVal.undefined := by
        cases v <;> simp [JSVal.isNullish] at hv <;> rfl
      cases session <;>
        simp [socketWrites, sessionCloses, socketCloses, sessionInputs, mediaPayload, hp, this,
          JSVal.isNullish]
    | false =>
      cases hs : (v.read "event").strictEqStr "start" with
      | true =>
        have hm := strictEqStr_start_not_media _ hs
        rw [onSocketMessage_start rt _ message v hp hv hs]
        cases hn : (v.read "start").isNullish <;> cases session <;>
          simp [socketWrites, sessionCloses, socketCloses, sessionInputs, mediaPayload, hp, hm,
            isStartMessage, hs, hn]
      | false =>
        cases hm : (v.read "event").strictEqStr "media" with
        | true =>
          rw [onSocketMessage_media rt _ message v hp hv hm]
          cases hn : (v.read "media").isNullish <;> cases session <;>
            simp [socketWrites, sessionCloses, socketCloses, sessionInputs, mediaPayload, hp, hm,
              hn]
        | false =>
          rw [onSocketMessage_other rt _ message v hp hv hs hm]
          cases session <;>
            simp [socketWrites, sessionCloses, socketCloses, sessionInputs, mediaPayload, hp, hm]

/-- Everything the `onmessage` callback can do, in one statement. -/
theorem onmessage_spec (rt : Runtime) (b : Bridge) (msg : JSVal) :
    (onmessage rt b msg).state = b ∧
    (onmessage rt b msg).raised = msg.isNullish ∧
    (onmessage rt b msg).effects =
      (match inlineAudioData msg with
        | some d =>
          if b.streamId.truthy then
            [Effect.socketSend (rt.JSONstringify (outboundMessage b.streamId d))]
          else []
        | none => []) := by
  cases hm : msg.isNullish with
  | true =>
    rw [onmessage_nullish rt b msg hm, inlineAudioData_nullish msg hm]
    simp
  | false =>
    cases hd : inlineAudioData msg with
    | none => rw [onmessage_no_data rt b msg hm hd]; simp
    | some d =>
      rw [onmessage_data rt b msg d hd]
      split <;> simp

/-- While no session is assigned, a telephony `media` message does nothing at all. -/
theorem media_without_session (rt : Runtime) (b : Bridge) (m : String)
    (hnone : b.session = none) (hm : isMediaMessage rt m = true) :
    onSocketMessage rt b m = { state := b, effects := [], raised := false } := by
  unfold isMediaMessage at hm
  cases hp : rt.JSONparse m with
  | none => simp [hp] at hm
  | some v =>
    simp only [hp] at hm
    have hv : v.isNullish = false := by
      cases v <;> first | rfl | simp [JSVal.read, JSVal.strictEqStr] at hm
    rw [onSocketMessage_media rt b m v hp hv hm, hnone]

/-- When the request is built, the conversion of `to` on line 53 has succeeded as well. -/
theorem outboundRequest_converts_to (rt : Runtime) (body : JSVal) (hostText : String)
    (request : FetchRequest) (h : outboundRequest rt body hostText = Except.ok request) :
    ∃ toText, rt.toStr (body.read "to") = Except.ok toText := by
  unfold outboundRequest at h
  cases h1 : rt.toStr (body.read "accountSid") with
  | error e => simp [h1, bind, Except.bind] at h
  | ok a =>
    cases h2 : rt.toStr (body.read "authToken") with
    | error e => simp [h1, h2, bind, Except.bind] at h
    | ok t =>
      cases h3 : rt.toStr (body.read "to") with
      | error e => simp [h1, h2, h3, bind, Except.bind] at h
      | ok toText => exact ⟨toText, rfl⟩

/-! ## Runs of events -/

theorem runState_append (rt : Runtime) (b : Bridge) (xs ys : List Event) :
    runState rt b (xs ++ ys) = runState rt (runState rt b xs) ys := by
  induction xs generalizing b with
  | nil => rfl
  | cons e es ih => simp [runState, ih]

theorem runEffects_append (rt : Runtime) (b : Bridge) (xs ys : List Event) :
    runEffects rt b (xs ++ ys) = runEffects rt b xs ++ runEffects rt (runState rt b xs) ys := by
  induction xs generalizing b with
  | nil => rfl
  | cons e es ih => simp [runState, runEffects, ih]

theorem socketWrites_append (xs ys : List Effect) :
    socketWrites (xs ++ ys) = socketWrites xs ++ socketWrites ys := by
  simp [socketWrites, List.filterMap_append]

theorem sessionInputs_append (xs ys : List Effect) :
    sessionInputs (xs ++ ys) = sessionInputs xs ++ sessionInputs ys := by
  simp [sessionInputs, List.filterMap_append]

/-- Only a telephony `start` message changes `streamId`. -/
theorem step_streamId (rt : Runtime) (b : Bridge) (e : Event) :
    (step rt b e).state.streamId = b.streamId ∨
      ∃ m, e = Event.socketMessage m ∧ isStartMessage rt m = true := by
  cases e with
  | socketMessage m =>
    rcases (onSocketMessage_spec rt b m).2.2.2.2.2.2.2 with h | h
    · exact Or.inl h
    · exact Or.inr ⟨m, rfl, h⟩
  | sessionMessage msg => exact Or.inl (by simp [step, (onmessage_spec rt b msg).1])
  | sessionOpen => exact Or.inl rfl
  | connectResolved s => exact Or.inl rfl
  | connectRejected => exact Or.inl rfl
  | socketClosed => exact Or.inl rfl
  | readyStateChanged r => exact Or.inl rfl

theorem runState_streamId (rt : Runtime) (b : Bridge) (pre : List Event) :
    (runState rt b pre).streamId = b.streamId ∨
      ∃ m, Event.socketMessage m ∈ pre ∧ isStartMessage rt m = true := by
  induction pre generalizing b with
  | nil => exact Or.inl rfl
  | cons e es ih =>
    rcases ih (step rt b e).state with h | ⟨m, hm, hs⟩
    · rcases step_streamId rt b e with h2 | ⟨m, rfl, hs⟩
      · exact Or.inl (by simp [runState, h, h2])
      · exact Or.inr ⟨m, by simp, hs⟩
    · exact Or.inr ⟨m, List.mem_cons_of_mem _ hm, hs⟩

/-- A send on the telephony socket happens only in `onmessage`, with `streamId` truthy. -/
theorem step_write (rt : Runtime) (b : Bridge) (e : Event) (data : String)
    (h : Effect.socketSend data ∈ (step rt b e).effects) :
    b.streamId.truthy = true ∧
      ∃ msg d, e = Event.sessionMessage msg ∧ inlineAudioData msg = some d ∧
        data = rt.JSONstringify (outboundMessage b.streamId d) := by
  cases e with
  | socketMessage m =>
    have := (onSocketMessage_spec rt b m).2.2.2.1
    rw [← mem_socketWrites] at h
    simp [step, this] at h
  | sessionMessage msg =>
    simp only [step, (onmessage_spec rt b msg).2.2] at h
    cases hd : inlineAudioData msg with
    | none => simp [hd] at h
    | some d =>
      simp only [hd] at h
      split at h
      · rename_i hc
        simp only [List.mem_singleton, Effect.socketSend.injEq] at h
        exact ⟨hc, msg, d, rfl, hd, h⟩
      · simp at h
  | sessionOpen => simp [step, onopen] at h
  | connectResolved s => simp [step] at h
  | connectRejected => simp [step] at h
  | socketClosed => simp [step, onSocketClose] at h
  | readyStateChanged r => simp [step] at h

/-- With a session present, the inputs forwarded for a list of telephony messages are the
payloads of its media messages, in order. -/
theorem inbound_relay (rt : Runtime) (b : Bridge) (sess : SessionId) (msgs : List String)
    (h : b.session = some sess) :
    sessionInputs (runEffects rt b (msgs.map Event.socketMessage)) =
      (msgs.filterMap (mediaPayload rt)).map realtimeInput := by
  induction msgs generalizing b with
  | nil => rfl
  | cons m ms ih =>
    have hspec := onSocketMessage_spec rt b m
    have hsess : (step rt b (Event.socketMessage m)).state.session = some sess := by
      simp [step, hspec.2.1, h]
    have hin : sessionInputs (step rt b (Event.socketMessage m)).effects =
        ((mediaPayload rt m).map realtimeInput).toList := by
      have := hspec.2.2.2.2.2.2.1
      rw [h] at this
      simpa [step] using this
    simp only [List.map_cons, runEffects, sessionInputs_append, ih _ hsess, hin]
    cases hmp : mediaPayload rt m <;> simp [List.filterMap_cons, hmp]

/-- The texts sent for a list of AI-session messages: one per message that carries inline
audio data, in order, when `streamId` is truthy; none otherwise. -/
theorem outbound_relay (rt : Runtime) (b : Bridge) (msgs : List JSVal) :
    runState rt b (msgs.map Event.sessionMessage) = b ∧
    socketWrites (runEffects rt b (msgs.map Event.sessionMessage)) =
      if b.streamId.truthy then
        (msgs.filterMap inlineAudioData).map
          (fun d => rt.JSONstringify (outboundMessage b.streamId d))
      else [] := by
  induction msgs with
  | nil => simp [runState, runEffects, socketWrites]
  | cons m ms ih =>
    have hspec := onmessage_spec rt b m
    have hst : (step rt b (Event.sessionMessage m)).state = b := hspec.1
    have heff : (step rt b (Event.sessionMessage m)).effects = _ := hspec.2.2
    simp only [List.map_cons, runState, runEffects, hst, socketWrites_append, ih.1, ih.2, heff,
      true_and]
    cases hd : inlineAudioData m <;>
      by_cases hc : b.streamId.truthy = true <;>
      simp [socketWrites, hc, List.filterMap_cons, hd]

/-! ## Properties of the bridge and of the endpoint -/

/-- C1: from the initial state (`streamId = null`), whatever events have been processed,
an event that writes to the telephony socket is handled in a state whose `streamId` is set
(truthy, so not `null`), and a telephony `start` message was processed before it. -/
theorem no_write_before_start (rt : Runtime) (c : Connection) (pre : List Event) (ev : Event)
    (data : String)
    (h : Effect.socketSend data ∈ (step rt (runState rt (Bridge.initial c) pre) ev).effects) :
    (runState rt (Bridge.initial c) pre).streamId.truthy = true ∧
    (runState rt (Bridge.initial c) pre).streamId ≠ JSVal.null ∧
    ∃ m, Event.socketMessage m ∈ pre ∧ isStartMessage rt m = true := by
  obtain ⟨ht, -⟩ := step_write rt _ ev data h
  have hne : (runState rt (Bridge.initial c) pre).streamId ≠ JSVal.null := by
    intro hn
    rw [hn] at ht
    simp [JSVal.truthy] at ht
  refine ⟨ht, hne, ?_⟩
  rcases runState_streamId rt (Bridge.initial c) pre with h0 | hex
  · exact absurd h0 hne
  · exact hex

theorem no_write_before_start_witness :
    Effect.socketSend outboundText ∈
      (step rt0 (runState rt0 (Bridge.initial openChannel)
        [Event.connectResolved 7, Event.socketMessage startText])
        (Event.sessionMessage (audioMessage (JSVal.str "BBBB")))).effects ∧
    (runState rt0 (Bridge.initial openChannel)
      [Event.connectResolved 7, Event.socketMessage startText]).streamId.truthy = true ∧
    (runState rt0 (Bridge.initial openChannel)
      [Event.connectResolved 7, Event.socketMessage startText]).streamId ≠ JSVal.null ∧
    ∃ m, Event.socketMessage m ∈ [Event.connectResolved 7, Event.socketMessage startText] ∧
      isStartMessage rt0 m = true :=
  have h : Effect.socketSend outboundText ∈
      (step rt0 (runState rt0 (Bridge.initial openChannel)
        [Event.connectResolved 7, Event.socketMessage startText])
        (Event.sessionMessage (audioMessage (JSVal.str "BBBB")))).effects :=
    (mem_socketWrites _ _).1 (by decide)
  ⟨h, no_write_before_start rt0 openChannel _ _ _ h⟩

/-- Counterexample to C2 as stated, at the empty stream id: after `start` with `streamSid`
the empty string and a `media` message, with the session present and the channel open, an
AI-session message carrying inline audio data makes the bridge write nothing. -/
theorem empty_stream_id_writes_nothing :
    rt0.JSONparse startEmptyText = some (startValue (JSVal.str "")) ∧
    rt0.JSONparse mediaText = some (mediaValue (JSVal.str "AAAA")) ∧
    inlineAudioData (audioMessage (JSVal.str "BBBB")) = some (JSVal.str "BBBB") ∧
    (step rt0
      (runState rt0 { session := some 7, streamId := JSVal.null, connection := openChannel }
        [Event.socketMessage startEmptyText, Event.socketMessage mediaText])
      (Event.sessionMessage (audioMessage (JSVal.str "BBBB")))).effects = [] :=
  ⟨rfl, rfl, rfl, rfl⟩

/-- C2, amended: for every non-empty stream id `s` and payloads `a`, `d`: with the session
present and the channel open, after the telephony messages `start` (stream id `s`) and
`media` (payload `a`), an AI-session message whose first model-turn part carries inline
audio data `d` makes the bridge write exactly one message, the JSON encoding of
`{event: "media", streamSid: s, media: {payload: d}}`, and nothing else. -/
theorem start_media_audio_writes_one (rt : Runtime) (b : Bridge) (sess : SessionId) (s : String)
    (a d msg : JSVal) (m1 m2 : String)
    (hsess : b.session = some sess)
    (hopen : b.connection.socket.readyState = Socket.OPEN)
    (hs : s ≠ "")
    (h1 : rt.JSONparse m1 = some (startValue (JSVal.str s)))
    (h2 : rt.JSONparse m2 = some (mediaValue a))
    (hd : inlineAudioData msg = some d) :
    runEffects rt b [Event.socketMessage m1, Event.socketMessage m2] =
      [Effect.sendRealtimeInput sess (realtimeInput a)] ∧
    (step rt (runState rt b [Event.socketMessage m1, Event.socketMessage m2])
      (Event.sessionMessage msg)).effects =
      [Effect.socketSend (rt.JSONstringify (JSVal.obj [("event", JSVal.str "media"),
        ("streamSid", JSVal.str s), ("media", JSVal.obj [("payload", d)])]))] ∧
    (step rt (runState rt b [Event.socketMessage m1, Event.socketMessage m2])
      (Event.sessionMessage msg)).raised = false := by
  obtain ⟨session, streamId, connection⟩ := b
  simp only at hsess hopen
  subst hsess
  have e1 : onSocketMessage rt ⟨some sess, streamId, connection⟩ m1 =
      { state := ⟨some sess, JSVal.str s, connection⟩, effects := [], raised := false } := by
    rw [onSocketMessage_start rt _ m1 _ h1 rfl rfl]
    rfl
  have e2 : onSocketMessage rt ⟨some sess, JSVal.str s, connection⟩ m2 =
      { state := ⟨some sess, JSVal.str s, connection⟩
        effects := [Effect.sendRealtimeInput sess (realtimeInput a)], raised := false } := by
    rw [onSocketMessage_media rt _ m2 _ h2 rfl rfl]
    rfl
  have hm : msg.isNullish = false := (audioDataOf_of_data msg d hd).1
  have e3 := onmessage_spec rt ⟨some sess, JSVal.str s, connection⟩ msg
  simp only [hd, hm] at e3
  have hcond : (JSVal.str s).truthy = true := by
    simp [JSVal.truthy, hs]
  simp only [hcond, if_true] at e3
  simp only [runEffects, runState, step, e1, e2, List.nil_append, List.append_nil]
  exact ⟨trivial, e3.2.2, e3.2.1⟩

theorem start_media_audio_writes_one_witness :
    runEffects rt0 { session := some 7, streamId := JSVal.null, connection := openChannel }
      [Event.socketMessage startText, Event.socketMessage mediaText] =
      [Effect.sendRealtimeInput 7 (realtimeInput (JSVal.str "AAAA"))] ∧
    (step rt0
      (runState rt0 { session := some 7, streamId := JSVal.null, connection := openChannel }
        [Event.socketMessage startText, Event.socketMessage mediaText])
      (Event.sessionMessage (audioMessage (JSVal.str "BBBB")))).effects =
      [Effect.socketSend (rt0.JSONstringify (JSVal.obj [("event", JSVal.str "media"),
        ("streamSid", JSVal.str "S1"), ("media", JSVal.obj [("payload", JSVal.str "BBBB")])]))] ∧
    (step rt0
      (runState rt0 { session := some 7, streamId := JSVal.null, connection := openChannel }
        [Event.socketMessage startText, Event.socketMessage mediaText])
      (Event.sessionMessage (audioMessage (JSVal.str "BBBB")))).raised = false :=
  start_media_audio_writes_one rt0
    { session := some 7, streamId := JSVal.null, connection := openChannel } 7 "S1"
    (JSVal.str "AAAA") (JSVal.str "BBBB") (audioMessage (JSVal.str "BBBB")) startText mediaText
    rfl rfl (by decide) rfl rfl rfl

/-- Counterexample to C3 as stated: a `media` frame that arrives before the session is
assigned is never forwarded. After frame `AAAA`, the assignment of session 7, and frame
`CCCC`, the session has received `CCCC` only; frame `AAAA` caused no call and left the
initial state as it was. -/
theorem early_frame_is_lost :
    sessionInputs (runEffects rt0 (Bridge.initial openChannel)
      [Event.socketMessage mediaText, Event.connectResolved 7,
        Event.socketMessage laterMediaText]) = [realtimeInput (JSVal.str "CCCC")] ∧
    runEffects rt0 (Bridge.initial openChannel) [Event.socketMessage mediaText] = [] ∧
    runState rt0 (Bridge.initial openChannel) [Event.socketMessage mediaText] =
      Bridge.initial openChannel :=
  ⟨rfl, rfl, rfl⟩

/-- C3, amended: telephony `media` frames received while no session is assigned are
dropped: they cause no call and leave the state unchanged (nothing is buffered). Once the
session is assigned, exactly the frames that arrive afterwards are forwarded, one realtime
input per frame that carries a `media` value, in arrival order. -/
theorem frames_before_session_dropped (rt : Runtime) (b : Bridge) (early later : List String)
    (sess : SessionId) (hnone : b.session = none)
    (hearly : ∀ m ∈ early, isMediaMessage rt m = true) :
    runState rt b (early.map Event.socketMessage) = b ∧
    runEffects rt b (early.map Event.socketMessage) = [] ∧
    sessionInputs (runEffects rt b
      (early.map Event.socketMessage ++ Event.connectResolved sess ::
        later.map Event.socketMessage)) =
      (later.filterMap (mediaPayload rt)).map realtimeInput := by
  have hdrop : runState rt b (early.map Event.socketMessage) = b ∧
      runEffects rt b (early.map Event.socketMessage) = [] := by
    induction early with
    | nil => exact ⟨rfl, rfl⟩
    | cons m ms ih =>
      have hm := media_without_session rt b m hnone (hearly m (by simp))
      have ih' := ih (fun x hx => hearly x (List.mem_cons_of_mem _ hx))
      simp only [List.map_cons, runState, runEffects, step, hm, ih'.1, ih'.2, List.append_nil,
        and_self]
  refine ⟨hdrop.1, hdrop.2, ?_⟩
  rw [runEffects_append, hdrop.1, hdrop.2, List.nil_append]
  simp only [runEffects, step, List.nil_append]
  exact inbound_relay rt _ sess later rfl

theorem frames_before_session_dropped_witness :
    runState rt0 (Bridge.initial openChannel) ([mediaText].map Event.socketMessage) =
      Bridge.initial openChannel ∧
    runEffects rt0 (Bridge.initial openChannel) ([mediaText].map Event.socketMessage) = [] ∧
    sessionInputs (runEffects rt0 (Bridge.initial openChannel)
      ([mediaText].map Event.socketMessage ++ Event.connectResolved 7 ::
        [laterMediaText].map Event.socketMessage)) =
      ([laterMediaText].filterMap (mediaPayload rt0)).map realtimeInput :=
  frames_before_session_dropped rt0 (Bridge.initial openChannel) [mediaText] [laterMediaText] 7
    rfl (by decide)

/-- C4: the `close` listener of the telephony socket makes no `session.close()` call and
leaves the state as it was, so a session that exists stays stored and open; the claim asks
for exactly one close. -/
theorem socket_close_never_closes_session (rt : Runtime) (b : Bridge) :
    sessionCloses (step rt b Event.socketClosed).effects = 0 ∧
    (step rt b Event.socketClosed).state = b ∧
    (step rt b Event.socketClosed).effects = [Effect.consoleLog "Client disconnected"] :=
  ⟨rfl, rfl, rfl⟩

/-- Counterexample to C5 as stated, where `start` or `media` is present without being an
object. In mid-call (session 7, stream `S1`), the message `{"event":"start","start":5}`
replaces `streamId` by `undefined`, and the message `{"event":"media","media":"AAAA"}`
forwards a realtime input (with `data` undefined) to the session. -/
theorem non_object_member_is_not_dropped :
    midCall.streamId = JSVal.str "S1" ∧
    (onSocketMessage rt0 midCall startNumberText).state.streamId = JSVal.undefined ∧
    (onSocketMessage rt0 midCall mediaStringText).effects =
      [Effect.sendRealtimeInput 7 (realtimeInput JSVal.undefined)] :=
  ⟨rfl, rfl, rfl⟩

/-- C5, amended: for every bridge state and every telephony message that does not parse,
or parses to a non-object, or is a `start` message whose `start` is absent or `null`, or
(while a session exists) a `media` message whose `media` is absent or `null`, the message
listener does not raise, forwards nothing to the session, writes nothing to the telephony
socket, closes neither the connection nor the session, and leaves the state (so `streamId`
and `session`) unchanged. -/
theorem malformed_message_dropped (rt : Runtime) (b : Bridge) (message : String)
    (h : isMalformed rt b message = true) :
    (onSocketMessage rt b message).raised = false ∧
    (onSocketMessage rt b message).state = b ∧
    sessionInputs (onSocketMessage rt b message).effects = [] ∧
    socketWrites (onSocketMessage rt b message).effects = [] ∧
    socketCloses (onSocketMessage rt b message).effects = 0 ∧
    sessionCloses (onSocketMessage rt b message).effects = 0 := by
  have caught : ∀ o : Outcome,
      o = { state := b, effects := [Effect.consoleError "Socket message error"],
            raised := false } ∨
      o = { state := b, effects := [], raised := false } →
      o.raised = false ∧ o.state = b ∧ sessionInputs o.effects = [] ∧
        socketWrites o.effects = [] ∧ socketCloses o.effects = 0 ∧
        sessionCloses o.effects = 0 := by
    rintro o (rfl | rfl) <;>
      simp [sessionInputs, socketWrites, socketCloses, sessionCloses]
  apply caught
  unfold isMalformed at h
  cases hp : rt.JSONparse message with
  | none => exact Or.inl (onSocketMessage_unparseable rt b message hp)
  | some v =>
    simp only [hp] at h
    cases hv : v.isNullish with
    | true => exact Or.inl (onSocketMessage_nullish rt b message v hp hv)
    | false =>
      cases hs : (v.read "event").strictEqStr "start" with
      | true =>
        have hm := strictEqStr_start_not_media _ hs
        have hobj : ∃ fields, v = JSVal.obj fields := by
          cases v <;> simp [JSVal.read, JSVal.strictEqStr] at hs
          exact ⟨_, rfl⟩
        obtain ⟨fields, rfl⟩ := hobj
        simp only [hs, hm, Bool.true_and, Bool.false_and, Bool.or_false, Bool.false_or] at h
        rw [onSocketMessage_start rt b message _ hp hv hs, h]
        exact Or.inl rfl
      | false =>
        cases hm : (v.read "event").strictEqStr "media" with
        | true =>
          have hobj : ∃ fields, v = JSVal.obj fields := by
            cases v <;> simp [JSVal.read, JSVal.strictEqStr] at hm
            exact ⟨_, rfl⟩
          obtain ⟨fields, rfl⟩ := hobj
          simp only [hs, hm, Bool.true_and, Bool.false_and, Bool.or_false, Bool.false_or,
            Bool.and_eq_true] at h
          rw [onSocketMessage_media rt b message _ hp hv hm]
          cases hsess : b.session with
          | none => rw [hsess] at h; simp at h
          | some s => simp [h.2]
        | false => exact Or.inr (onSocketMessage_other rt b message v hp hv hs hm)

theorem malformed_message_dropped_witness :
    isMalformed rt0 midCall startBareText = true ∧
    (onSocketMessage rt0 midCall startBareText).raised = false ∧
    (onSocketMessage rt0 midCall startBareText).state = midCall ∧
    sessionInputs (onSocketMessage rt0 midCall startBareText).effects = [] ∧
    socketWrites (onSocketMessage rt0 midCall startBareText).effects = [] ∧
    socketCloses (onSocketMessage rt0 midCall startBareText).effects = 0 ∧
    sessionCloses (onSocketMessage rt0 midCall startBareText).effects = 0 :=
  ⟨by decide, malformed_message_dropped rt0 midCall startBareText (by decide)⟩

/-- C6: the guard of line 122 compares `connection.readyState` with `connection.OPEN`, two
reads on the stream wrapper that both give `undefined`, so it never looks at the state of
the telephony socket `connection.socket`. With the socket closed (`readyState` 3),
`streamId` set and a message that carries audio, `onmessage` still calls `send` on the
socket, where the claim asks for no write; and for every state and message, what
`onmessage` does is the same whatever the connection is. -/
theorem closed_socket_still_sent :
    closedChannel.socket.readyState ≠ Socket.OPEN ∧
    (onmessage rt0 { session := some 7, streamId := JSVal.str "S1", connection := closedChannel }
      (audioMessage (JSVal.str "BBBB"))).effects = [Effect.socketSend outboundText] ∧
    ∀ (rt : Runtime) (b : Bridge) (c : Connection) (msg : JSVal),
      (onmessage rt { b with connection := c } msg).effects = (onmessage rt b msg).effects := by
  refine ⟨by decide, rfl, ?_⟩
  intro rt b c msg
  rw [(onmessage_spec rt { b with connection := c } msg).2.2, (onmessage_spec rt b msg).2.2]

/-- Counterexample to C7 as stated, at the empty stream id: with `streamId` set to the
empty string and the channel open, an AI-session message that carries the inline audio
payload `BBBB` is processed and nothing is written to the telephony socket. -/
theorem empty_stream_id_relays_nothing :
    [audioMessage (JSVal.str "BBBB")].filterMap inlineAudioData = [JSVal.str "BBBB"] ∧
    socketWrites (runEffects rt0
      { session := some 7, streamId := JSVal.str "", connection := openChannel }
      ([audioMessage (JSVal.str "BBBB")].map Event.sessionMessage)) = [] :=
  ⟨rfl, rfl⟩

/-- C7, amended: per direction the bridge is an order-preserving one-to-one relay. For
every list of telephony messages processed while the session is present (whatever
`streamId` is), the realtime inputs forwarded to the session are, in arrival order, one per
`media` message, each holding that message's payload. For every list of AI-session
messages processed with `streamId` set to a non-empty string `s` and the channel open, the
texts written to the telephony socket are, in arrival order, one per message that carries
first-part inline audio data `d`, each the JSON encoding of
`{event: "media", streamSid: s, media: {payload: d}}`. -/
theorem relay_keeps_order (rt : Runtime) (b : Bridge) (telephony : List String)
    (fromSession : List JSVal) :
    (∀ sess, b.session = some sess →
      sessionInputs (runEffects rt b (telephony.map Event.socketMessage)) =
        (telephony.filterMap (mediaPayload rt)).map
          (fun p => JSVal.obj [("media", JSVal.obj
            [("mimeType", JSVal.str "audio/pcm;rate=8000"), ("data", p)])])) ∧
    (∀ s, b.streamId = JSVal.str s → s ≠ "" →
      b.connection.socket.readyState = Socket.OPEN →
      socketWrites (runEffects rt b (fromSession.map Event.sessionMessage)) =
        (fromSession.filterMap inlineAudioData).map
          (fun d => rt.JSONstringify (JSVal.obj [("event", JSVal.str "media"),
            ("streamSid", JSVal.str s), ("media", JSVal.obj [("payload", d)])]))) := by
  refine ⟨fun sess hsess => inbound_relay rt b sess telephony hsess, ?_⟩
  intro s hid hs _
  have hcond : b.streamId.truthy = true := by simp [hid, JSVal.truthy, hs]
  rw [(outbound_relay rt b fromSession).2, hcond, if_pos rfl, hid]
  rfl

theorem relay_keeps_order_witness :
    sessionInputs (runEffects rt0
      { session := some 7, streamId := JSVal.null, connection := openChannel }
      ([mediaText, startText, laterMediaText].map Event.socketMessage)) =
      ([mediaText, startText, laterMediaText].filterMap (mediaPayload rt0)).map
        (fun p => JSVal.obj [("media", JSVal.obj
          [("mimeType", JSVal.str "audio/pcm;rate=8000"), ("data", p)])]) ∧
    socketWrites (runEffects rt0 midCall
      ([audioMessage (JSVal.str "BBBB"), JSVal.obj [],
        audioMessage (JSVal.str "DDDD")].map Event.sessionMessage)) =
      ([audioMessage (JSVal.str "BBBB"), JSVal.obj [],
        audioMessage (JSVal.str "DDDD")].filterMap inlineAudioData).map
        (fun d => rt0.JSONstringify (JSVal.obj [("event", JSVal.str "media"),
          ("streamSid", JSVal.str "S1"), ("media", JSVal.obj [("payload", d)])])) :=
  ⟨(relay_keeps_order rt0
      { session := some 7, streamId := JSVal.null, connection := openChannel }
      [mediaText, startText, laterMediaText] []).1 7 rfl,
    (relay_keeps_order rt0 midCall []
      [audioMessage (JSVal.str "BBBB"), JSVal.obj [], audioMessage (JSVal.str "DDDD")]).2
      "S1" rfl (by decide) rfl⟩

/-- Counterexample to C8 as stated: a request with a body whose `to` member cannot be
converted to a string, and a provider that answers every request with status 401 and body
text `denied`. The handler throws a TypeError on line 53, before the try block: it makes
no request to the provider and does not reply with status 500 and `{error: "denied"}`. -/
theorem unconvertible_body_throws :
    unconvertibleBody.isNullish = false ∧
    (outboundCall rt0 unconvertibleBody (some "example.org") denyingProvider).reply =
      Reply.thrown JSError.typeError ∧
    (outboundCall rt0 unconvertibleBody (some "example.org") denyingProvider).requests = [] :=
  ⟨rfl, rfl, rfl⟩

/-- C8, amended: for a request with a body whose `to`, `from`, `accountSid` and `authToken`
members convert to strings (so that the request to the provider is built) and a provider
response `r`: when the status of `r` is not in the range 200-299 and its body text is `t`,
the endpoint replies with status 500 and payload `{error: t}`, has made exactly one request
to the provider, and does not return any data; when the status is in the range 200-299 and
the body parses to `d`, the endpoint returns `d` unchanged, again after exactly one
request. -/
theorem outbound_call_reply (rt : Runtime) (body : JSVal) (host : Option String)
    (fetch : FetchRequest → FetchOutcome) (request : FetchRequest) (r : Response)
    (hbody : body.isNullish = false)
    (hrequest : outboundRequest rt body (host.getD "undefined") = Except.ok request)
    (hfetch : fetch request = FetchOutcome.response r) :
    (∀ t, ¬ (200 ≤ r.status ∧ r.status ≤ 299) → r.text = BodyRead.resolved t →
      (outboundCall rt body host fetch).reply =
        Reply.sent 500 (JSVal.obj [("error", JSVal.str t)]) ∧
      (outboundCall rt body host fetch).requests = [request] ∧
      ∀ data, (outboundCall rt body host fetch).reply ≠ Reply.returned data) ∧
    (∀ d, 200 ≤ r.status ∧ r.status ≤ 299 → r.json = BodyRead.resolved d →
      (outboundCall rt body host fetch).reply = Reply.returned d ∧
      (outboundCall rt body host fetch).requests = [request]) := by
  obtain ⟨toText, hto⟩ := outboundRequest_converts_to rt body _ request hrequest
  constructor
  · intro t hstatus htext
    have hok : r.ok = false := by simp [Response.ok, hstatus]
    have : (outboundCall rt body host fetch).reply =
        Reply.sent 500 (JSVal.obj [("error", JSVal.str t)]) ∧
        (outboundCall rt body host fetch).requests = [request] := by
      simp [outboundCall, hbody, hto, hrequest, hfetch, tryBlock, hok, htext]
    refine ⟨this.1, this.2, ?_⟩
    intro data hdata
    rw [this.1] at hdata
    exact Reply.noConfusion hdata
  · intro d hstatus hjson
    have hok : r.ok = true := by simp [Response.ok, hstatus]
    simp [outboundCall, hbody, hto, hrequest, hfetch, tryBlock, hok, hjson]

theorem outbound_call_reply_witness :
    ((outboundCall rt0 sampleBody (some "example.org") denyingProvider).reply =
        Reply.sent 500 (JSVal.obj [("error", JSVal.str "denied")]) ∧
      (outboundCall rt0 sampleBody (some "example.org") denyingProvider).requests =
        [sampleRequest] ∧
      ∀ data, (outboundCall rt0 sampleBody (some "example.org") denyingProvider).reply ≠
        Reply.returned data) ∧
    ((outboundCall rt0 sampleBody (some "example.org") acceptingProvider).reply =
        Reply.returned (JSVal.obj [("sid", JSVal.str "CA1")]) ∧
      (outboundCall rt0 sampleBody (some "example.org") acceptingProvider).requests =
        [sampleRequest]) :=
  ⟨(outbound_call_reply rt0 sampleBody (some "example.org") denyingProvider sampleRequest
      { status := 401, text := BodyRead.resolved "denied",
        json := BodyRead.rejected "Unexpected token" } rfl rfl rfl).1 "denied" (by decide) rfl,
    (outbound_call_reply rt0 sampleBody (some "example.org") acceptingProvider sampleRequest
      { status := 201, text := BodyRead.resolved "",
        json := BodyRead.resolved (JSVal.obj [("sid", JSVal.str "CA1")]) } rfl rfl rfl).2
      (JSVal.obj [("sid", JSVal.str "CA1")]) (by decide) rfl⟩

/-- Counterexample to C9 as stated: a `stop` message does not terminate the bridge. In
mid-call, after `stop`, a later `media` message is still forwarded to the session and a
later AI-session audio message is still written to the telephony socket; no call closes
the session. -/
theorem stop_does_not_terminate :
    isStopMessage rt0 stopText = true ∧
    runEffects rt0 midCall
      [Event.socketMessage stopText, Event.socketMessage mediaText,
        Event.sessionMessage (audioMessage (JSVal.str "BBBB"))] =
      [Effect.sendRealtimeInput 7 (realtimeInput (JSVal.str "AAAA")),
        Effect.socketSend outboundText] :=
  ⟨rfl, rfl⟩

/-- C9, amended: for every bridge state, processing a telephony `stop` message makes no
call (the session is not closed), raises nothing and leaves the state unchanged; every
later event is then handled exactly as if the `stop` message had not arrived. -/
theorem stop_is_ignored (rt : Runtime) (b : Bridge) (m : String) (later : List Event)
    (h : isStopMessage rt m = true) :
    onSocketMessage rt b m = { state := b, effects := [], raised := false } ∧
    runState rt b (Event.socketMessage m :: later) = runState rt b later ∧
    runEffects rt b (Event.socketMessage m :: later) = runEffects rt b later := by
  have hstep : onSocketMessage rt b m = { state := b, effects := [], raised := false } := by
    unfold isStopMessage at h
    cases hp : rt.JSONparse m with
    | none => simp [hp] at h
    | some v =>
      simp only [hp] at h
      have hv : v.isNullish = false := by
        cases v <;> first | rfl | simp [JSVal.read, JSVal.strictEqStr] at h
      have hne : (v.read "event").strictEqStr "start" = false ∧
          (v.read "event").strictEqStr "media" = false := by
        cases hev : v.read "event" <;> simp [hev, JSVal.strictEqStr] at h ⊢
        subst h
        exact ⟨by decide, by decide⟩
      exact onSocketMessage_other rt b m v hp hv hne.1 hne.2
  exact ⟨hstep, by simp [runState, step, hstep], by simp [runEffects, step, hstep]⟩

theorem stop_is_ignored_witness :
    onSocketMessage rt0 midCall stopText = { state := midCall, effects := [], raised := false } ∧
    runState rt0 midCall (Event.socketMessage stopText :: [Event.socketMessage mediaText]) =
      runState rt0 midCall [Event.socketMessage mediaText] ∧
    runEffects rt0 midCall (Event.socketMessage stopText :: [Event.socketMessage mediaText]) =
      runEffects rt0 midCall [Event.socketMessage mediaText] :=
  stop_is_ignored rt0 midCall stopText [Event.socketMessage mediaText] (by decide)

/-- C10: inbound forwarding does not depend on `streamId`. For every bridge state with a
session, whatever `streamId` is, processing the telephony message
`{event: "media", media: {payload: p}}` makes exactly one call: `sendRealtimeInput` on the
session with `{media: {mimeType: 'audio/pcm;rate=8000', data: p}}`. Nothing is written to
the telephony socket, nothing is raised, and the state (`streamId`, `session`) is
unchanged. -/
theorem media_forwarded_whatever_stream_id (rt : Runtime) (b : Bridge) (sess : SessionId)
    (p : JSVal) (m : String)
    (hsess : b.session = some sess) (hm : rt.JSONparse m = some (mediaValue p)) :
    onSocketMessage rt b m =
      { state := b
        effects := [Effect.sendRealtimeInput sess
          (JSVal.obj [("media", JSVal.obj [("mimeType", JSVal.str "audio/pcm;rate=8000"),
            ("data", p)])])]
        raised := false } ∧
    socketWrites (onSocketMessage rt b m).effects = [] := by
  have h := onSocketMessage_media rt b m _ hm rfl rfl
  rw [hsess] at h
  rw [h]
  exact ⟨rfl, rfl⟩

theorem media_forwarded_whatever_stream_id_witness :
    onSocketMessage rt0 { session := some 7, streamId := JSVal.null, connection := openChannel }
        mediaText =
      { state := { session := some 7, streamId := JSVal.null, connection := openChannel }
        effects := [Effect.sendRealtimeInput 7
          (JSVal.obj [("media", JSVal.obj [("mimeType", JSVal.str "audio/pcm;rate=8000"),
            ("data", JSVal.str "AAAA")])])]
        raised := false } ∧
    socketWrites (onSocketMessage rt0
      { session := some 7, streamId := JSVal.null, connection := openChannel }
      mediaText).effects = [] :=
  media_forwarded_whatever_stream_id rt0
    { session := some 7, streamId := JSVal.null, connection := openChannel } 7
    (JSVal.str "AAAA") mediaText rfl rfl

end SalesAI
